import Mathlib

/-!
Shallow embedding of the askdoc client's local/remote profile and per-user
collection synchronization core (the merge/load engine, the session gate's
commit step and render decision, and the per-collection mutators), translated
from the main application source file.

Modelling conventions:
* JavaScript strings are Lean `String`s; a nullable field is an `Option`.
  The JS truthiness test `x || d` on a string field treats both `null`
  (here `none`) and the empty string as falsy.
* JSON values read from the local key-value store are modelled by `StoredJson`:
  a value that fails `JSON.parse` is `corrupt`, an object is `obj` carrying the
  parsed (partial) profile shape, and arrays are carried with their element
  shape.  Storage keys `"<coll>_<userId>"` are modelled by the pair
  `StoreKey.mk coll userId`; every base collection name used by the app is
  underscore-free, so this pairing is injective on the keys the app builds.
* Asynchronous storage and network calls are suspension points whose outcomes
  are inputs to the embedded functions: a remote fetch attempt outcome is a
  `FetchOutcome`, the success of a local write is a `Bool`.
* The loader's own local-storage writes are fire-and-forget in the source
  (`.catch(console.error)`); a failed write leaves the store unchanged, which
  the single `writeOk` flag captures.
-/

namespace Askdoc

/-! ## Profile data model (`DEFAULT_PROFILE` and its nested shapes) -/

structure Lifestyle where
  smoker : Bool
  alcohol : String
  exercise : String
  dietaryNotes : String
deriving DecidableEq, Repr

structure Biometrics where
  height : String
  weight : String
deriving DecidableEq, Repr

structure EmergencyContact where
  name : String
  relationship : String
  phone : String
deriving DecidableEq, Repr

structure Profile where
  user_id : Option String
  name : String
  dob : Option String
  gender : String
  age : String
  conditions : List String
  allergies : List String
  medications : List String
  medicalHistory : List String
  familyHistory : List String
  vaccinationHistory : String
  bloodType : String
  lifestyle : Lifestyle
  biometrics : Biometrics
  emergencyContact : EmergencyContact
  state : String
deriving DecidableEq, Repr

def DEFAULT_PROFILE : Profile :=
  { user_id := none
    name := ""
    dob := none
    gender := ""
    age := ""
    conditions := []
    allergies := []
    medications := []
    medicalHistory := []
    familyHistory := []
    vaccinationHistory := ""
    bloodType := ""
    lifestyle := { smoker := false, alcohol := "", exercise := "", dietaryNotes := "" }
    biometrics := { height := "", weight := "" }
    emergencyContact := { name := "", relationship := "", phone := "" }
    state := "" }

/-- `{ ...DEFAULT_PROFILE, user_id: userId }`, the default profile stamped
with a user id. -/
def defaultProfileFor (userId : String) : Profile :=
  { DEFAULT_PROFILE with user_id := some userId }

/-! ## JavaScript-style defaulting helpers -/

/-- `s.trim()`: strip leading and trailing whitespace.  (Implemented over the
character list so that it evaluates by kernel reduction.) -/
def jsTrim (s : String) : String :=
  String.mk (((s.data.dropWhile Char.isWhitespace).reverse.dropWhile Char.isWhitespace).reverse)

/-- `v || d` for a nullable string `v`: `null` and `""` are falsy. -/
def jsOrStr (v : Option String) (d : String) : String :=
  match v with
  | none => d
  | some s => if s = "" then d else s

/-- `v || null` for a nullable string `v`. -/
def jsOrNullStr (v : Option String) : Option String :=
  match v with
  | none => none
  | some s => if s = "" then none else some s

/-- `v ? v.split(',').map(s => s.trim()).filter(Boolean) : []`. -/
def splitCSV (v : Option String) : List String :=
  match v with
  | none => []
  | some s => if s = "" then [] else ((s.splitOn ",").map jsTrim).filter (fun x => x ≠ "")

/-! ## Parsed local profile JSON (the candidate stored under `profile_<userId>`)

A field that is absent from the stored object (or, for the list fields, fails
the `Array.isArray` check) is `none`. -/

structure LifestyleJson where
  smoker : Option Bool
  alcohol : Option String
  exercise : Option String
  dietaryNotes : Option String
deriving DecidableEq, Repr

structure BiometricsJson where
  height : Option String
  weight : Option String
deriving DecidableEq, Repr

structure EmergencyContactJson where
  name : Option String
  relationship : Option String
  phone : Option String
deriving DecidableEq, Repr

structure LocalJson where
  user_id : Option String
  name : Option String
  dob : Option String
  gender : Option String
  age : Option String
  conditions : Option (List String)
  allergies : Option (List String)
  medications : Option (List String)
  medicalHistory : Option (List String)
  familyHistory : Option (List String)
  vaccinationHistory : Option String
  bloodType : Option String
  lifestyle : Option LifestyleJson
  biometrics : Option BiometricsJson
  emergencyContact : Option EmergencyContactJson
  state : Option String
deriving DecidableEq, Repr

/-- `{ ...DEFAULT_PROFILE.lifestyle, ...(parsedProfile.lifestyle || {}) }`. -/
def mergeLifestyleJson (j : Option LifestyleJson) : Lifestyle :=
  match j with
  | none => DEFAULT_PROFILE.lifestyle
  | some lj =>
      { smoker := lj.smoker.getD false
        alcohol := lj.alcohol.getD ""
        exercise := lj.exercise.getD ""
        dietaryNotes := lj.dietaryNotes.getD "" }

/-- `{ ...DEFAULT_PROFILE.biometrics, ...(parsedProfile.biometrics || {}) }`. -/
def mergeBiometricsJson (j : Option BiometricsJson) : Biometrics :=
  match j with
  | none => DEFAULT_PROFILE.biometrics
  | some bj => { height := bj.height.getD "", weight := bj.weight.getD "" }

/-- `{ ...DEFAULT_PROFILE.emergencyContact, ...(parsedProfile.emergencyContact || {}) }`. -/
def mergeEmergencyContactJson (j : Option EmergencyContactJson) : EmergencyContact :=
  match j with
  | none => DEFAULT_PROFILE.emergencyContact
  | some ej =>
      { name := ej.name.getD ""
        relationship := ej.relationship.getD ""
        phone := ej.phone.getD "" }

/-- The loader's deep merge of a valid parsed local profile onto the full
default profile (the `loadedProfile = { ...DEFAULT_PROFILE, ...parsedProfile,
... }` block): every scalar, list and nested field is individually defaulted. -/
def mergeLocalProfile (userId : String) (j : LocalJson) : Profile :=
  { user_id := some userId
    name := jsOrStr j.name ""
    dob := jsOrNullStr j.dob
    gender := jsOrStr j.gender ""
    age := j.age.getD ""
    conditions := j.conditions.getD []
    allergies := j.allergies.getD []
    medications := j.medications.getD []
    medicalHistory := j.medicalHistory.getD []
    familyHistory := j.familyHistory.getD []
    vaccinationHistory := jsOrStr j.vaccinationHistory ""
    bloodType := jsOrStr j.bloodType ""
    lifestyle := mergeLifestyleJson j.lifestyle
    biometrics := mergeBiometricsJson j.biometrics
    emergencyContact := mergeEmergencyContactJson j.emergencyContact
    state := jsOrStr j.state "" }

/-! ## Remote profile row and its mapping into the profile shape -/

/-- A row of the remote `profiles` table.  Every column is nullable; the
numeric `age` column is modelled by its stringified value since the source
immediately applies `String(...)` to it. -/
structure ProfileRow where
  name : Option String
  dob : Option String
  gender : Option String
  age : Option String
  conditions : Option String
  allergies : Option String
  medications : Option String
  medical_history : Option String
  family_history : Option String
  vaccination_history : Option String
  blood_type : Option String
  lifestyle_smoker : Option Bool
  lifestyle_alcohol : Option String
  lifestyle_exercise : Option String
  lifestyle_dietary_notes : Option String
  biometrics_height : Option String
  biometrics_weight : Option String
  emergency_contact_name : Option String
  emergency_contact_relationship : Option String
  emergency_contact_phone : Option String
  state : Option String
deriving DecidableEq, Repr

/-- The `mappedProfile` block: mapping a fetched remote row onto the full
default profile stamped with the user id. -/
def mapSupabaseProfile (userId : String) (r : ProfileRow) : Profile :=
  { user_id := some userId
    name := jsOrStr r.name ""
    dob := jsOrNullStr r.dob
    gender := jsOrStr r.gender ""
    age := r.age.getD ""
    conditions := splitCSV r.conditions
    allergies := splitCSV r.allergies
    medications := splitCSV r.medications
    medicalHistory := splitCSV r.medical_history
    familyHistory := splitCSV r.family_history
    vaccinationHistory := jsOrStr r.vaccination_history ""
    bloodType := jsOrStr r.blood_type ""
    lifestyle :=
      { smoker := r.lifestyle_smoker.getD false
        alcohol := jsOrStr r.lifestyle_alcohol ""
        exercise := jsOrStr r.lifestyle_exercise ""
        dietaryNotes := jsOrStr r.lifestyle_dietary_notes "" }
    biometrics :=
      { height := jsOrStr r.biometrics_height ""
        weight := jsOrStr r.biometrics_weight "" }
    emergencyContact :=
      { name := jsOrStr r.emergency_contact_name ""
        relationship := jsOrStr r.emergency_contact_relationship ""
        phone := jsOrStr r.emergency_contact_phone "" }
    state := jsOrStr r.state "" }

/-- The parsed form of `JSON.stringify(p)` for a fully defined profile:
every field is present (a `null` scalar stays `null`). -/
def profileToJson (p : Profile) : LocalJson :=
  { user_id := p.user_id
    name := some p.name
    dob := p.dob
    gender := some p.gender
    age := some p.age
    conditions := some p.conditions
    allergies := some p.allergies
    medications := some p.medications
    medicalHistory := some p.medicalHistory
    familyHistory := some p.familyHistory
    vaccinationHistory := some p.vaccinationHistory
    bloodType := some p.bloodType
    lifestyle := some
      { smoker := some p.lifestyle.smoker
        alcohol := some p.lifestyle.alcohol
        exercise := some p.lifestyle.exercise
        dietaryNotes := some p.lifestyle.dietaryNotes }
    biometrics := some { height := some p.biometrics.height, weight := some p.biometrics.weight }
    emergencyContact := some
      { name := some p.emergencyContact.name
        relationship := some p.emergencyContact.relationship
        phone := some p.emergencyContact.phone }
    state := some p.state }

/-! ## Per-user collection item shapes -/

structure HistoryItem where
  id : String
  text : String
  summary : String
  time : String
  response : String
  type : String
deriving DecidableEq, Repr

structure Reminder where
  medication : String
  time : String
  notificationId : Option String
deriving DecidableEq, Repr

structure Appointment where
  id : String
  date : String
  title : String
  notificationId : Option String
deriving DecidableEq, Repr

/-- A symptom progress entry; the ISO `timestamp` string is modelled by its
epoch-milliseconds value, which orders exactly as `new Date(ts).getTime()`. -/
structure SymptomEntry where
  id : String
  date : String
  time : String
  symptoms : String
  notes : String
  status : String
  timestamp : Nat
deriving DecidableEq, Repr

/-! ## The local key-value store -/

/-- The storage key `"<coll>_<userId>"`.  All base collection names the app
uses (`profile`, `history`, `chatMedications`, `favoriteTips`, `reminders`,
`appointments`, `symptomProgress`) are underscore-free, so the pair determines
the string key injectively. -/
structure StoreKey where
  coll : String
  user : String
deriving DecidableEq, Repr

/-- A parsed stored JSON value.  `corrupt` carries the `JSON.parse` exception
message; arrays are carried with their element shape (the source only checks
`Array.isArray`, never the element shape, but within this app each collection
key only ever holds its own element shape). -/
inductive StoredJson where
  | corrupt (msg : String)
  | obj (j : LocalJson)
  | histArr (l : List HistoryItem)
  | strArr (l : List String)
  | remArr (l : List Reminder)
  | apptArr (l : List Appointment)
  | sympArr (l : List SymptomEntry)
  | otherVal
deriving DecidableEq

def Store : Type := StoreKey → Option StoredJson

/-- `AsyncStorage.setItem` with the outcome of the write as input; a failed
write (caught and only logged in the loader) leaves the store unchanged. -/
def storeSet (writeOk : Bool) (k : StoreKey) (v : StoredJson) (st : Store) : Store :=
  if writeOk then fun k' => if k' = k then some v else st k' else st

/-- `AsyncStorage.removeItem`, same convention. -/
def storeRemove (writeOk : Bool) (k : StoreKey) (st : Store) : Store :=
  if writeOk then fun k' => if k' = k then none else st k' else st

/-! ## The remote profile fetch with bounded retry -/

/-- Outcome of one `supabase.from('profiles').select('*').eq('id', userId)
.maybeSingle()` attempt: a successful reply (with or without a row) or a
thrown/transport error. -/
inductive FetchOutcome where
  | ok (row : Option ProfileRow)
  | err (msg : String)
deriving DecidableEq

/-- The retry loop (`while attempts < maxAttempts && ...`): attempt `i` takes
outcome `f i`; a success (even with no row) breaks out, a failure on the last
allowed attempt records the error, otherwise the loop sleeps 2s and retries.
Returns the result together with the number of attempts performed. -/
def fetchLoop (f : Nat → FetchOutcome) : Nat → Nat → (Except String (Option ProfileRow)) × Nat
  | _, 0 => (Except.error "", 0)
  | i, fuel + 1 =>
    match f i with
    | FetchOutcome.ok row => (Except.ok row, 1)
    | FetchOutcome.err m =>
        if fuel = 0 then (Except.error m, 1)
        else
          let r := fetchLoop f (i + 1) fuel
          (r.1, r.2 + 1)

def maxAttempts : Nat := 3

def fetchSupabaseProfile (f : Nat → FetchOutcome) : (Except String (Option ProfileRow)) × Nat :=
  fetchLoop f 0 maxAttempts

/-! ## The merge/load engine (`initializeApp`) -/

/-- Result of the local profile resolution step: the candidate base profile
(the stored profile deep-merged onto defaults when present, parseable and
owned by the requested user, otherwise the stamped defaults), the store after
removal of an invalid/corrupted key, and whether a raw stored string was
present at all (`storedProfileJson` truthiness). -/
structure LocalResolve where
  candidate : Profile
  store : Store
  storedPresent : Bool

def profileKey (userId : String) : StoreKey := ⟨"profile", userId⟩

def resolveLocalProfile (writeOk : Bool) (userId : String) (st : Store) : LocalResolve :=
  match st (profileKey userId) with
  | none => ⟨defaultProfileFor userId, st, false⟩
  | some (StoredJson.obj j) =>
      if j.user_id = some userId then
        ⟨mergeLocalProfile userId j, st, true⟩
      else
        ⟨defaultProfileFor userId, storeRemove writeOk (profileKey userId) st, true⟩
  | some _ =>
      ⟨defaultProfileFor userId, storeRemove writeOk (profileKey userId) st, true⟩

/-- Result of one `loadPersistedDataLocal` call. -/
structure CollLoad (α : Type) where
  data : List α
  store : Store
  err : Option String

/-- `loadPersistedDataLocal(key)`: absent gives the default empty list; a
parse failure or a non-array value removes the corrupted key and records a
non-fatal per-collection error. -/
def loadPersistedDataLocal (writeOk : Bool) (userId key : String)
    (extract : StoredJson → Option (List α)) (st : Store) : CollLoad α :=
  let userKey : StoreKey := ⟨key, userId⟩
  match st userKey with
  | none => ⟨[], st, none⟩
  | some (StoredJson.corrupt m) =>
      ⟨[], storeRemove writeOk userKey st, some ("Load error for " ++ key ++ ": " ++ m)⟩
  | some v =>
      match extract v with
      | some l => ⟨l, st, none⟩
      | none => ⟨[], storeRemove writeOk userKey st, some ("Invalid data for " ++ key)⟩

def getHistArr : StoredJson → Option (List HistoryItem)
  | StoredJson.histArr l => some l
  | _ => none

def getStrArr : StoredJson → Option (List String)
  | StoredJson.strArr l => some l
  | _ => none

def getRemArr : StoredJson → Option (List Reminder)
  | StoredJson.remArr l => some l
  | _ => none

def getApptArr : StoredJson → Option (List Appointment)
  | StoredJson.apptArr l => some l
  | _ => none

def getSympArr : StoredJson → Option (List SymptomEntry)
  | StoredJson.sympArr l => some l
  | _ => none

/-- The snapshot returned by one `initializeApp` invocation. -/
structure Snapshot where
  profile : Profile
  history : List HistoryItem
  chatMedications : List String
  favoriteTips : List String
  reminders : List Reminder
  appointments : List Appointment
  symptomProgress : List SymptomEntry
  loadError : Option String
deriving DecidableEq

/-- Error aggregation: the profile fetch error (if any) followed by
`'Data loading issues: ' + dataErrors.join(', ')` when any per-collection
error was recorded. -/
def combineLoadError (profileErr : Option String) (dataErrors : List String) : Option String :=
  if dataErrors.isEmpty then profileErr
  else
    some ((match profileErr with
            | some s => s ++ "; "
            | none => "") ++ "Data loading issues: " ++ String.intercalate ", " dataErrors)

/-- How one `initializeApp(userId)` call resolves: the skipped sentinel
(`null`), a rejected promise, or a snapshot. -/
inductive InitResult where
  | skipped
  | thrown (msg : String)
  | loaded (snap : Snapshot)
deriving DecidableEq

/-- The environment of one `initializeApp` run: the outcome of each remote
fetch attempt, whether local-storage writes succeed, and — to model the outer
`catch` boundary — an unexpected exception (with its message) raised somewhere
inside the body, if any. -/
structure LoadEnv where
  fetch : Nat → FetchOutcome
  writeOk : Bool
  critical : Option String

structure InitOutcome where
  result : InitResult
  store : Store
  fetchAttempts : Nat

/-- The fully-defaulted snapshot produced by the outer catch. -/
def criticalSnapshot (userId msg : String) : Snapshot :=
  { profile := defaultProfileFor userId
    history := []
    chatMedications := []
    favoriteTips := []
    reminders := []
    appointments := []
    symptomProgress := []
    loadError := some ("Critical initialization error: " ++ msg) }

/-- `initializeApp(userId)`.  A falsy user id throws before anything else; a
call while another is in flight returns the `null` sentinel before touching
storage or the network.  Store mutations on distinct keys commute, so the
source's concurrent per-collection loads are sequenced here.  When
`env.critical` is set the body's store mutations before the exception point
are not modelled (no claim concerns them). -/
def initializeApp (userId : String) (isInitializing : Bool) (env : LoadEnv) (st0 : Store) :
    InitOutcome :=
  if userId = "" then ⟨InitResult.thrown "User ID missing for initialization.", st0, 0⟩
  else if isInitializing then ⟨InitResult.skipped, st0, 0⟩
  else
    match env.critical with
    | some m => ⟨InitResult.loaded (criticalSnapshot userId m), st0, 0⟩
    | none =>
      let res := resolveLocalProfile env.writeOk userId st0
      let fr := fetchSupabaseProfile env.fetch
      -- profile decision: a fetched row wins unconditionally and is cached
      -- back; otherwise the local candidate stands (the candidate already is
      -- the stamped default when nothing valid was stored).
      let afterRemote : Profile × Store × Option String :=
        match fr.1 with
        | Except.ok (some row) =>
            let mapped := mapSupabaseProfile userId row
            (mapped,
             storeSet env.writeOk (profileKey userId) (StoredJson.obj (profileToJson mapped)) res.store,
             none)
        | Except.ok none => (res.candidate, res.store, none)
        | Except.error m => (res.candidate, res.store, some ("Profile fetch failed: " ++ m))
      let cH := loadPersistedDataLocal env.writeOk userId "history" getHistArr afterRemote.2.1
      let cC := loadPersistedDataLocal env.writeOk userId "chatMedications" getStrArr cH.store
      let cF := loadPersistedDataLocal env.writeOk userId "favoriteTips" getStrArr cC.store
      let cR := loadPersistedDataLocal env.writeOk userId "reminders" getRemArr cF.store
      let cA := loadPersistedDataLocal env.writeOk userId "appointments" getApptArr cR.store
      let cS := loadPersistedDataLocal env.writeOk userId "symptomProgress" getSympArr cA.store
      let dataErrors := [cH.err, cC.err, cF.err, cR.err, cA.err, cS.err].filterMap id
      let snap : Snapshot :=
        { profile := afterRemote.1
          history := cH.data
          chatMedications := cC.data
          favoriteTips := cF.data
          reminders := cR.data
          appointments := cA.data
          symptomProgress := cS.data
          loadError := combineLoadError afterRemote.2.2 dataErrors }
      ⟨InitResult.loaded snap, cS.store, fr.2⟩

/-! ## The session gate's commit step (Effect 4's `.then` handler) -/

/-- The in-memory per-user state committed by the gate. -/
structure UserState where
  profile : Profile
  history : List HistoryItem
  reminders : List Reminder
  chatMedications : List String
  favoriteTips : List String
  appointments : List Appointment
  symptomProgress : List SymptomEntry
deriving DecidableEq

def defaultUserState : UserState :=
  { profile := DEFAULT_PROFILE
    history := []
    reminders := []
    chatMedications := []
    favoriteTips := []
    appointments := []
    symptomProgress := [] }

/-- The `.then(loadedData => ...)` handler of Effect 4: a `null` result (the
skipped sentinel) is ignored, any other resolved snapshot is committed into
the in-memory state together with its load error.  The handler reads nothing
but `loadedData` itself. -/
def effect4Commit (loadedData : Option Snapshot) (us : UserState) (le : Option String) :
    UserState × Option String :=
  match loadedData with
  | none => (us, le)
  | some s =>
      ({ profile := s.profile
         history := s.history
         reminders := s.reminders
         chatMedications := s.chatMedications
         favoriteTips := s.favoriteTips
         appointments := s.appointments
         symptomProgress := s.symptomProgress }, s.loadError)

/-! ## Per-collection mutators

Each mutator computes the next collection value, attempts the serialized
write (`writeOk` is its outcome), and reports the resulting in-memory value,
what (if anything) was durably written, and the alert shown to the user.
Destructive mutators are modelled at their confirmed branch. -/

structure MutOut (α : Type) where
  mem : List α
  written : Option (List α)
  alert : Option String
deriving DecidableEq

/-- `toggleFavoriteTip`: the setItem promise's rejection is only logged
(`.catch(console.error)`), and the functional state update returns the new
list unconditionally. -/
def toggleFavoriteTip (userId : Option String) (writeOk : Bool) (tipId : String)
    (prev : List String) : MutOut String :=
  match userId with
  | none => ⟨prev, none, some "User not logged in, cannot update favorites."⟩
  | some _ =>
      let updated :=
        if prev.contains tipId then prev.filter (fun i => i ≠ tipId)
        else prev ++ [tipId]
      ⟨updated, if writeOk then some updated else none, none⟩

/-- `validateTime`: the `^([01]\d|2[0-3]):([0-5]\d)$` check. -/
def validateTime (s : String) : Bool :=
  match s.toList with
  | [h1, h2, c, m1, m2] =>
      c = ':' &&
      (((h1 = '0' || h1 = '1') && h2.isDigit) || (h1 = '2' && ('0' ≤ h2 && h2 ≤ '3'))) &&
      (('0' ≤ m1 && m1 ≤ '5') && m2.isDigit)
  | _ => false

/-- `handleSetOrUpdateReminder`.  `schedResult` is the identifier returned by
`scheduleMedicineNotification` (`none` when scheduling failed).  On a failed
write the catch alerts and no state update runs (the earlier optimistic
success alert is not modelled separately). -/
def handleSetOrUpdateReminder (userId : Option String) (writeOk : Bool)
    (medName timeInput : String) (schedResult : Option String)
    (prev : List Reminder) : MutOut Reminder :=
  if medName = "" then ⟨prev, none, none⟩
  else
    let trimmedTime := jsTrim timeInput
    if !validateTime trimmedTime then
      ⟨prev, none, some "Please use HH:MM format (e.g., 08:00)."⟩
    else
      match userId with
      | none => ⟨prev, none, some "User not logged in, cannot save reminder."⟩
      | some _ =>
          let existing := prev.find? (fun r => r.medication == medName)
          let isUpdating := existing.isSome
          if schedResult.isNone && !isUpdating then
            ⟨prev, none, some "Could not set notification reminder."⟩
          else
            let nid :=
              match schedResult with
              | some s => some s
              | none =>
                  match existing with
                  | some r => r.notificationId
                  | none => none
            let newR : Reminder := ⟨medName, trimmedTime, nid⟩
            let updated :=
              match existing with
              | some _ => prev.map (fun r => if r.medication == medName then newR else r)
              | none => prev ++ [newR]
            if writeOk then
              ⟨updated, some updated,
               some (if isUpdating then "Reminder updated!" else "Reminder set!")⟩
            else ⟨prev, none, some "Could not save reminder changes."⟩

/-- `handleDeleteReminder` (confirmed branch); deleting a medication with no
reminder is a logged no-op. -/
def handleDeleteReminder (userId : Option String) (writeOk : Bool) (medName : String)
    (prev : List Reminder) : MutOut Reminder :=
  match userId with
  | none => ⟨prev, none, some "User not logged in."⟩
  | some _ =>
      match prev.find? (fun r => r.medication == medName) with
      | none => ⟨prev, none, none⟩
      | some _ =>
          let updated := prev.filter (fun r => r.medication != medName)
          if writeOk then ⟨updated, some updated, some "Reminder deleted."⟩
          else ⟨prev, none, some "Could not update reminder list."⟩

/-- The history append performed after an analysis (lab report or symptom):
the new item is prepended; the in-memory update runs only after the write
succeeded.  `failMsg` is the storage-error alert text of the calling screen. -/
def historyAppend (writeOk : Bool) (failMsg : String) (item : HistoryItem)
    (prev : List HistoryItem) : MutOut HistoryItem :=
  let updated := item :: prev
  if writeOk then ⟨updated, some updated, none⟩
  else ⟨prev, none, some failMsg⟩

/-- `deleteHistoryItem` (confirmed branch); an id not present in the
collection is a logged no-op. -/
def deleteHistoryItem (userId : Option String) (writeOk : Bool) (idToDelete : String)
    (prev : List HistoryItem) : MutOut HistoryItem :=
  match userId with
  | none => ⟨prev, none, some "User not logged in."⟩
  | some _ =>
      match prev.find? (fun it => it.id == idToDelete) with
      | none => ⟨prev, none, none⟩
      | some _ =>
          let newHistory := prev.filter (fun it => it.id != idToDelete)
          if writeOk then ⟨newHistory, some newHistory, some "Item deleted."⟩
          else ⟨prev, none, some "Failed to delete item."⟩

/-- The sort key `parseDateString(a.date).getTime()` for appointments: an
`MM/DD/YYYY HH:MM` string is mapped monotonically to a natural number
(lexicographically in year, month, day, hour, minute, matching `Date` order
on the in-range values the validator admits); a shape mismatch yields the
epoch (`new Date(0)`). -/
def parseApptKey (s : String) : Nat :=
  match s.splitOn " " with
  | [dpart, tpart] =>
      (match dpart.splitOn "/", tpart.splitOn ":" with
       | [ms, ds, ys], [hs, mins] =>
           (match ms.toNat?, ds.toNat?, ys.toNat?, hs.toNat?, mins.toNat? with
            | some m, some d, some y, some h, some mi => (((y * 13 + m) * 32 + d) * 24 + h) * 60 + mi
            | _, _, _, _, _ => 0)
       | _, _ => 0)
  | _ => 0

/-- `bookAppointment`.  The new id is `Date.now().toString()`; `validDT`
abstracts `validateDateTime` (a clock-dependent future-date check);
`schedResult` is the scheduled notification identifier if any.  The updated
list is kept sorted ascending by parsed date. -/
def bookAppointment (userId : Option String) (writeOk : Bool) (title dateTime : String)
    (validDT : Bool) (nowMs : Nat) (schedResult : Option String)
    (prev : List Appointment) : MutOut Appointment :=
  match userId with
  | none => ⟨prev, none, some "User not logged in."⟩
  | some _ =>
      if jsTrim title = "" then ⟨prev, none, some "Please enter a title for the appointment."⟩
      else if !validDT then
        ⟨prev, none, some "Please enter a valid future date and time in MM/DD/YYYY HH:MM format."⟩
      else
        let newAppt : Appointment := ⟨toString nowMs, jsTrim dateTime, jsTrim title, schedResult⟩
        let updated :=
          (prev ++ [newAppt]).mergeSort (fun a b => parseApptKey a.date ≤ parseApptKey b.date)
        if writeOk then ⟨updated, some updated, some "Appointment added!"⟩
        else ⟨prev, none, some "Could not save appointment."⟩

/-- `cancelAppointment` (confirmed branch). -/
def cancelAppointment (userId : Option String) (writeOk : Bool) (idToCancel : String)
    (prev : List Appointment) : MutOut Appointment :=
  match userId with
  | none => ⟨prev, none, some "User not logged in."⟩
  | some _ =>
      match prev.find? (fun a => a.id == idToCancel) with
      | none => ⟨prev, none, none⟩
      | some _ =>
          let updated := prev.filter (fun a => a.id != idToCancel)
          if writeOk then ⟨updated, some updated, some "Appointment cancelled."⟩
          else ⟨prev, none, some "Could not update list."⟩

/-- `addEntry` on the symptom progress screen.  The id, display date and time
come from the wall clock (`entryId`, `dateStr`, `timeStr`); the list is kept
sorted descending by timestamp. -/
def addEntry (userId : Option String) (writeOk : Bool) (symInput notesInput statusInput : String)
    (entryId dateStr timeStr : String) (nowTs : Nat)
    (prev : List SymptomEntry) : MutOut SymptomEntry :=
  match userId with
  | none => ⟨prev, none, some "User not logged in."⟩
  | some _ =>
      let sym := jsTrim symInput
      if sym = "" then ⟨prev, none, some "Please describe your current symptoms for the entry."⟩
      else
        let entry : SymptomEntry :=
          ⟨entryId, dateStr, timeStr, sym, jsTrim notesInput, statusInput.toLower, nowTs⟩
        let updated := (entry :: prev).mergeSort (fun a b => b.timestamp ≤ a.timestamp)
        if writeOk then ⟨updated, some updated, some "Symptom entry added."⟩
        else ⟨prev, none, some "Could not save symptom entry."⟩

/-- `deleteEntry` on the symptom progress screen (confirmed branch). -/
def deleteEntry (userId : Option String) (writeOk : Bool) (idToDelete : String)
    (prev : List SymptomEntry) : MutOut SymptomEntry :=
  match userId with
  | none => ⟨prev, none, some "User not logged in."⟩
  | some _ =>
      match prev.find? (fun e => e.id == idToDelete) with
      | none => ⟨prev, none, none⟩
      | some _ =>
          let updated := prev.filter (fun e => e.id != idToDelete)
          if writeOk then ⟨updated, some updated, some "Entry deleted."⟩
          else ⟨prev, none, some "Could not delete entry."⟩

/-! ## History item ids -/

/-- The id of a lab-report history item: `Date.now().toString() + '_lab'`. -/
def mkLabHistoryItem (nowMs : Nat) (text summary timeS payload : String) : HistoryItem :=
  ⟨toString nowMs ++ "_lab", text, summary, timeS, payload, "lab_report"⟩

/-- The id of a symptom-analysis history item:
`Date.now().toString() + '_symptom'`. -/
def mkSymptomHistoryItem (nowMs : Nat) (text summary timeS payload : String) : HistoryItem :=
  ⟨toString nowMs ++ "_symptom", text, summary, timeS, payload, "symptom_analysis"⟩

/-! ## The gate's top-level state machine (App component) -/

inductive Screen where
  | loading
  | login
  | warning
  | intro
  | mainApp
deriving DecidableEq

/-- The App component's state relevant to the render decision, extended with
the in-flight load (`pending`) and a ghost history `loadedFor` of user ids for
which a snapshot has been committed. -/
structure GateState where
  session : Option String
  authLoading : Bool
  appLoading : Bool
  isInit : Bool
  hasSeenWarning : Bool
  hasSeenIntro : Bool
  user : UserState
  loadingError : Option String
  pending : Option String
  loadedFor : List String

/-- The top-level render decision: loading while the auth check or (with a
session) a data load is pending, then login, then the two onboarding screens,
then the main application. -/
def render (st : GateState) : Screen :=
  if st.authLoading || (st.session.isSome && st.appLoading) then Screen.loading
  else if st.session.isNone then Screen.login
  else if !st.hasSeenWarning then Screen.warning
  else if !st.hasSeenIntro then Screen.intro
  else Screen.mainApp

def initialGateState : GateState :=
  { session := none
    authLoading := true
    appLoading := false
    isInit := false
    hasSeenWarning := false
    hasSeenIntro := false
    user := defaultUserState
    loadingError := none
    pending := none
    loadedFor := [] }

def snapshotUserState (s : Snapshot) : UserState :=
  { profile := s.profile
    history := s.history
    reminders := s.reminders
    chatMedications := s.chatMedications
    favoriteTips := s.favoriteTips
    appointments := s.appointments
    symptomProgress := s.symptomProgress }

/-- One state-updating event of the App component.  React commits state and
renders after each event, and only then runs effects, so `render` may be
observed at every reachable state; in particular an effect reacting to an
event runs as a separate later event.
* `flagsLoaded`: Effect 2 resolves the persisted onboarding flags.
* `authResolved`: Effect 3's initial `getSession` resolves and its `finally`
  clears `authLoading`.
* `sessionChange`: the auth listener reports a new session.
* `effect4Start`: Effect 4 observes a logged-in session needing data (new
  user id or missing profile name) with no initialization in flight; it
  resets the user state and starts `initializeApp` (which sets its in-flight
  flag before its first suspension).
* `loadResolve`: the in-flight `initializeApp` promise resolves with a
  snapshot (always stamped with the requested user id) and the `.then`
  handler commits it — with no comparison against the current session.
* `effect4Logout`: Effect 4 observes a null session and resets. -/
inductive GateStep : GateState → GateState → Prop
  | flagsLoaded (w i : Bool) (st : GateState) :
      GateStep st { st with hasSeenWarning := w, hasSeenIntro := i }
  | authResolved (s : Option String) (st : GateState) :
      GateStep st { st with session := s, authLoading := false }
  | sessionChange (s : Option String) (st : GateState) :
      GateStep st { st with session := s }
  | effect4Start (u : String) (st : GateState)
      (hs : st.session = some u)
      (htrig : st.user.profile.user_id ≠ some u ∨ st.user.profile.name = "")
      (hni : st.isInit = false) :
      GateStep st { st with user := defaultUserState, loadingError := none,
                            appLoading := true, isInit := true, pending := some u }
  | loadResolve (u : String) (snap : Snapshot) (st : GateState)
      (hp : st.pending = some u)
      (hid : snap.profile.user_id = some u) :
      GateStep st { st with user := snapshotUserState snap, loadingError := snap.loadError,
                            appLoading := false, isInit := false, pending := none,
                            loadedFor := u :: st.loadedFor }
  | effect4Logout (st : GateState) (hs : st.session = none) :
      GateStep st { st with user := defaultUserState, loadingError := none,
                            appLoading := false, isInit := false }

def GateReachable (st : GateState) : Prop :=
  Relation.ReflTransGen GateStep initialGateState st

/-! ## The profile save path (`handleSaveProfile`) and the remote upsert -/

/-- The object literal `{ id: userId, name, dob, gender }` sent to
`supabase.from('profiles').upsert(...)`: these four columns and nothing else. -/
structure ProfileUpsertPayload where
  id : String
  name : String
  dob : String
  gender : String
deriving DecidableEq, Repr

/-- The payload built by `handleSaveProfile` from the edit screen inputs. -/
def handleSaveProfilePayload (userId nameInput dobInput genderInput : String) :
    ProfileUpsertPayload :=
  ⟨userId, jsTrim nameInput, jsTrim dobInput, jsTrim genderInput⟩

/-- The locally saved profile: the previous profile with the three edited
fields replaced (the stored `dob` becomes the trimmed input string). -/
def handleSaveProfileLocal (p : Profile) (nameInput dobInput genderInput : String) : Profile :=
  { p with name := jsTrim nameInput, dob := some (jsTrim dobInput), gender := jsTrim genderInput }

/-- A remote row with every column NULL, as inserted columns default to. -/
def emptyProfileRow : ProfileRow :=
  { name := none, dob := none, gender := none, age := none, conditions := none,
    allergies := none, medications := none, medical_history := none, family_history := none,
    vaccination_history := none, blood_type := none, lifestyle_smoker := none,
    lifestyle_alcohol := none, lifestyle_exercise := none, lifestyle_dietary_notes := none,
    biometrics_height := none, biometrics_weight := none, emergency_contact_name := none,
    emergency_contact_relationship := none, emergency_contact_phone := none, state := none }

/-- The remote table's `upsert` on conflict key `id` for a payload carrying
exactly the columns id, name, dob, gender: an existing row keeps every other
column, a fresh row gets NULL there.  (External-collaborator behaviour of the
hosted relational table.) -/
def upsertProfilesRow (existing : Option ProfileRow) (p : ProfileUpsertPayload) : ProfileRow :=
  let base := match existing with
    | some r => r
    | none => emptyProfileRow
  { base with name := some p.name, dob := some p.dob, gender := some p.gender }

/-! ## Helper lemmas -/

theorem storeSet_same (k : StoreKey) (v : StoredJson) (st : Store) :
    storeSet true k v st k = some v := by
  simp [storeSet]

theorem storeSet_frame (writeOk : Bool) (k k' : StoreKey) (v : StoredJson) (st : Store)
    (h : k' ≠ k) : storeSet writeOk k v st k' = st k' := by
  unfold storeSet
  split
  · simp [h]
  · rfl

theorem storeRemove_frame (writeOk : Bool) (k k' : StoreKey) (st : Store)
    (h : k' ≠ k) : storeRemove writeOk k st k' = st k' := by
  unfold storeRemove
  split
  · simp [h]
  · rfl

/-- Loading one collection never touches a key with a different base name. -/
theorem loadPersisted_frame {α : Type} (writeOk : Bool) (userId key : String)
    (extract : StoredJson → Option (List α)) (st : Store) (k : StoreKey)
    (hk : k.coll ≠ key) :
    (loadPersistedDataLocal writeOk userId key extract st).store k = st k := by
  have hne : k ≠ (⟨key, userId⟩ : StoreKey) := by
    intro h
    exact hk (by rw [h])
  unfold loadPersistedDataLocal
  dsimp only []
  split
  · rfl
  · exact storeRemove_frame _ _ _ _ hne
  · split
    · rfl
    · exact storeRemove_frame _ _ _ _ hne

/-- When all three fetch attempts fail, the retry loop reports the last
attempt's error after three attempts. -/
theorem fetchSupabase_all_fail (f : Nat → FetchOutcome) (m0 m1 m2 : String)
    (h0 : f 0 = FetchOutcome.err m0) (h1 : f 1 = FetchOutcome.err m1)
    (h2 : f 2 = FetchOutcome.err m2) :
    fetchSupabaseProfile f = (Except.error m2, 3) := by
  unfold fetchSupabaseProfile maxAttempts
  unfold fetchLoop
  rw [h0]
  simp only [Nat.succ_ne_zero, if_false, reduceIte]
  unfold fetchLoop
  rw [h1]
  simp only [Nat.succ_ne_zero, if_false, reduceIte]
  unfold fetchLoop
  rw [h2]
  simp

/-- The candidate produced by local profile resolution, written as a case
split on the stored value. -/
theorem resolveLocalProfile_candidate (writeOk : Bool) (userId : String) (st : Store) :
    (resolveLocalProfile writeOk userId st).candidate =
      (match st (profileKey userId) with
       | some (StoredJson.obj j) =>
           if j.user_id = some userId then mergeLocalProfile userId j
           else defaultProfileFor userId
       | _ => defaultProfileFor userId) := by
  cases h : st (profileKey userId) with
  | none => simp [resolveLocalProfile, h]
  | some v =>
      cases v with
      | obj j =>
          by_cases hj : j.user_id = some userId <;>
            simp [resolveLocalProfile, h, hj]
      | corrupt m => simp [resolveLocalProfile, h]
      | histArr l => simp [resolveLocalProfile, h]
      | strArr l => simp [resolveLocalProfile, h]
      | remArr l => simp [resolveLocalProfile, h]
      | apptArr l => simp [resolveLocalProfile, h]
      | sympArr l => simp [resolveLocalProfile, h]
      | otherVal => simp [resolveLocalProfile, h]

/-- Aggregating errors on top of a present profile error always yields a
message extending the profile error. -/
theorem combineLoadError_extend (p : String) (des : List String) :
    ∃ suffix, combineLoadError (some p) des = some (p ++ suffix) := by
  unfold combineLoadError
  by_cases h : des.isEmpty
  · exact ⟨"", by simp [h]⟩
  · refine ⟨"; Data loading issues: " ++ String.intercalate ", " des, ?_⟩
    simp [h, String.append_assoc]

/-! ## Claim C1 -/

/-- C1: for every user id `u`, every local candidate (any store contents) and
every remote row `R`: if the remote fetch inside `load(u)` succeeds and
returns a row, the snapshot's profile equals that row mapped onto the full
default profile stamped with `u`, regardless of the local candidate's
contents, and (provided the cache write succeeds, it being fire-and-forget)
that mapped profile is written back to local storage under `profile_<u>`. -/
theorem C1_remote_wins (u : String) (env : LoadEnv) (st : Store) (row : ProfileRow)
    (hu : u ≠ "") (hc : env.critical = none)
    (hf : (fetchSupabaseProfile env.fetch).1 = Except.ok (some row)) :
    ∃ snap, (initializeApp u false env st).result = InitResult.loaded snap ∧
      snap.profile = mapSupabaseProfile u row ∧
      (env.writeOk = true →
        (initializeApp u false env st).store (profileKey u) =
          some (StoredJson.obj (profileToJson (mapSupabaseProfile u row)))) := by
  simp only [initializeApp, if_neg hu, Bool.false_eq_true, if_false, hc, hf]
  refine ⟨_, rfl, rfl, fun hw => ?_⟩
  rw [loadPersisted_frame, loadPersisted_frame, loadPersisted_frame, loadPersisted_frame,
      loadPersisted_frame, loadPersisted_frame, hw, storeSet_same] <;>
    simp [profileKey]

def emptyStore : Store := fun _ => none

def C1WitnessRow : ProfileRow :=
  { emptyProfileRow with name := some "Zoe", age := some "33" }

def C1WitnessEnv : LoadEnv :=
  { fetch := fun _ => FetchOutcome.ok (some C1WitnessRow), writeOk := true, critical := none }

theorem C1_remote_wins_witness :
    ∃ snap, (initializeApp "u1" false C1WitnessEnv emptyStore).result = InitResult.loaded snap ∧
      snap.profile = mapSupabaseProfile "u1" C1WitnessRow ∧
      (C1WitnessEnv.writeOk = true →
        (initializeApp "u1" false C1WitnessEnv emptyStore).store (profileKey "u1") =
          some (StoredJson.obj (profileToJson (mapSupabaseProfile "u1" C1WitnessRow)))) :=
  C1_remote_wins "u1" C1WitnessEnv emptyStore C1WitnessRow (by decide) rfl rfl

/-! ## Claim C2 -/

/-- C2: if all three remote fetch attempts fail, `load(u)` keeps the locally
stored candidate deep-merged onto full defaults when a valid one exists
(otherwise the stamped defaults), performs exactly `maxAttempts = 3` fetch
attempts, and the snapshot's error field is non-empty and starts with a
description of the fetch failure. -/
theorem C2_offline_fallback (u : String) (env : LoadEnv) (st : Store) (m0 m1 m2 : String)
    (hu : u ≠ "") (hc : env.critical = none)
    (h0 : env.fetch 0 = FetchOutcome.err m0) (h1 : env.fetch 1 = FetchOutcome.err m1)
    (h2 : env.fetch 2 = FetchOutcome.err m2) :
    ∃ snap, (initializeApp u false env st).result = InitResult.loaded snap ∧
      snap.profile =
        (match st (profileKey u) with
         | some (StoredJson.obj j) =>
             if j.user_id = some u then mergeLocalProfile u j else defaultProfileFor u
         | _ => defaultProfileFor u) ∧
      (initializeApp u false env st).fetchAttempts = 3 ∧
      ∃ suffix, snap.loadError = some (("Profile fetch failed: " ++ m2) ++ suffix) := by
  have hfetch := fetchSupabase_all_fail env.fetch m0 m1 m2 h0 h1 h2
  simp only [initializeApp, if_neg hu, Bool.false_eq_true, if_false, hc, hfetch]
  exact ⟨_, rfl, resolveLocalProfile_candidate _ _ _, trivial, combineLoadError_extend _ _⟩

def C2WitnessJson : LocalJson :=
  { user_id := some "u1", name := some "Alex", dob := none, gender := none, age := none,
    conditions := none, allergies := none, medications := none, medicalHistory := none,
    familyHistory := none, vaccinationHistory := none, bloodType := none, lifestyle := none,
    biometrics := none, emergencyContact := none, state := none }

def C2WitnessStore : Store :=
  fun k => if k = profileKey "u1" then some (StoredJson.obj C2WitnessJson) else none

def C2WitnessEnv : LoadEnv :=
  { fetch := fun _ => FetchOutcome.err "network unreachable", writeOk := true, critical := none }

theorem C2_offline_fallback_witness :
    (∃ snap,
      (initializeApp "u1" false C2WitnessEnv C2WitnessStore).result = InitResult.loaded snap ∧
      snap.profile =
        (match C2WitnessStore (profileKey "u1") with
         | some (StoredJson.obj j) =>
             if j.user_id = some "u1" then mergeLocalProfile "u1" j else defaultProfileFor "u1"
         | _ => defaultProfileFor "u1") ∧
      (initializeApp "u1" false C2WitnessEnv C2WitnessStore).fetchAttempts = 3 ∧
      ∃ suffix, snap.loadError =
        some (("Profile fetch failed: " ++ "network unreachable") ++ suffix)) ∧
    (mergeLocalProfile "u1" C2WitnessJson).name = "Alex" ∧
    (mergeLocalProfile "u1" C2WitnessJson).age = "" ∧
    (mergeLocalProfile "u1" C2WitnessJson).conditions = [] ∧
    (mergeLocalProfile "u1" C2WitnessJson).lifestyle = DEFAULT_PROFILE.lifestyle :=
  ⟨C2_offline_fallback "u1" C2WitnessEnv C2WitnessStore
      "network unreachable" "network unreachable" "network unreachable"
      (by decide) rfl rfl rfl rfl,
   by decide, by decide, by decide, by decide⟩

/-! ## Claim C5 -/

/-- C5: a `load` call made while another invocation is in flight returns the
skipped sentinel (`null`) immediately — leaving the store untouched and
performing zero fetch attempts — and the caller's handler, on receiving the
sentinel, leaves the in-memory user state and load error unchanged. -/
theorem C5_skip_when_in_flight :
    (∀ (u : String) (env : LoadEnv) (st : Store), u ≠ "" →
      initializeApp u true env st = ⟨InitResult.skipped, st, 0⟩) ∧
    (∀ (us : UserState) (le : Option String), effect4Commit none us le = (us, le)) := by
  constructor
  · intro u env st hu
    simp [initializeApp, hu]
  · intro us le
    rfl

def anyEnv : LoadEnv :=
  { fetch := fun _ => FetchOutcome.err "down", writeOk := true, critical := none }

theorem C5_skip_when_in_flight_witness :
    initializeApp "u1" true anyEnv emptyStore = ⟨InitResult.skipped, emptyStore, 0⟩ ∧
    effect4Commit none defaultUserState none = (defaultUserState, none) :=
  ⟨C5_skip_when_in_flight.1 "u1" anyEnv emptyStore (by decide),
   C5_skip_when_in_flight.2 defaultUserState none⟩

/-! ## Claim C9 -/

/-- C9 counterexample: called without a user id (a falsy `userId`),
`initializeApp` raises — the rejection happens before the outer try/catch —
instead of resolving with a defaulted snapshot. -/
theorem C9_counterexample :
    (initializeApp "" false anyEnv emptyStore).result =
      InitResult.thrown "User ID missing for initialization." := rfl

/-- C9 (amended): for every non-empty user id, `load` never rejects, and an
unexpected exception inside the body is caught at the outer boundary and
converted into the fully-defaulted snapshot stamped with the requested id
whose error field describes the exception; but a call without a user id
throws to its caller. -/
theorem C9_no_throw_for_valid_user :
    (∀ (u : String) (ii : Bool) (env : LoadEnv) (st : Store), u ≠ "" →
      ∀ msg, (initializeApp u ii env st).result ≠ InitResult.thrown msg) ∧
    (∀ (u : String) (env : LoadEnv) (st : Store) (m : String), u ≠ "" →
      env.critical = some m →
      (initializeApp u false env st).result = InitResult.loaded (criticalSnapshot u m)) := by
  constructor
  · intro u ii env st hu msg
    unfold initializeApp
    rw [if_neg hu]
    cases ii with
    | true => simp
    | false => cases hcrit : env.critical <;> simp [hcrit]
  · intro u env st m hu hcrit
    simp [initializeApp, hu, hcrit]

theorem C9_no_throw_for_valid_user_witness :
    ((initializeApp "u1" false anyEnv emptyStore).result ≠ InitResult.thrown "boom") ∧
    (initializeApp "u1" false
        { fetch := fun _ => FetchOutcome.err "down", writeOk := true, critical := some "boom" }
        emptyStore).result = InitResult.loaded (criticalSnapshot "u1" "boom") :=
  ⟨C9_no_throw_for_valid_user.1 "u1" false anyEnv emptyStore (by decide) "boom",
   C9_no_throw_for_valid_user.2 "u1"
     { fetch := fun _ => FetchOutcome.err "down", writeOk := true, critical := some "boom" }
     emptyStore "boom" (by decide) rfl⟩

/-! ## Claim C3 -/

def C3StaleSnapshot : Snapshot :=
  { profile := defaultProfileFor "u1"
    history := []
    chatMedications := []
    favoriteTips := []
    reminders := []
    appointments := []
    symptomProgress := []
    loadError := none }

/-- C3 counterexample: a snapshot stamped for user "u1" that resolves while
the active session is `none` (logged out) is still committed by the gate's
handler — the in-memory user state changes — so the gate does not discard a
snapshot whose user id differs from the active session. -/
theorem C3_counterexample :
    C3StaleSnapshot.profile.user_id = some "u1" ∧
    (none : Option String) ≠ some "u1" ∧
    (effect4Commit (some C3StaleSnapshot) defaultUserState none).1 ≠ defaultUserState := by
  decide

/-- C3 (amended): the gate's commit handler compares nothing against the
active session: it discards exactly the `null` skipped sentinel, and commits
every non-null snapshot unconditionally — so in-memory state can transiently
be populated from a snapshot of a session that is no longer active. -/
theorem C3_commit_unconditional :
    (∀ (snap : Snapshot) (us : UserState) (le : Option String),
      effect4Commit (some snap) us le = (snapshotUserState snap, snap.loadError)) ∧
    (∀ (us : UserState) (le : Option String), effect4Commit none us le = (us, le)) := by
  constructor <;> intros <;> rfl

/-! ## Claim C6 -/

def C6FlashState : GateState :=
  { session := some "u1"
    authLoading := false
    appLoading := false
    isInit := false
    hasSeenWarning := true
    hasSeenIntro := true
    user := defaultUserState
    loadingError := none
    pending := none
    loadedFor := [] }

/-- C6 counterexample: the state reached by loading the onboarding flags as
`true` and then resolving the session for "u1" — before the load-triggering
effect has run — renders the main application although no snapshot has been
completed for any user. -/
theorem C6_counterexample :
    GateReachable C6FlashState ∧
    C6FlashState.session = some "u1" ∧
    render C6FlashState = Screen.mainApp ∧
    C6FlashState.loadedFor = [] := by
  refine ⟨?_, rfl, rfl, rfl⟩
  have h1 : GateStep initialGateState
      { initialGateState with hasSeenWarning := true, hasSeenIntro := true } :=
    GateStep.flagsLoaded true true _
  have h2 : GateStep { initialGateState with hasSeenWarning := true, hasSeenIntro := true }
      C6FlashState :=
    GateStep.authResolved (some "u1") _
  exact Relation.ReflTransGen.tail (Relation.ReflTransGen.tail Relation.ReflTransGen.refl h1) h2

/-- C6 (amended): whenever the initial auth check or a triggered load is
pending (`authLoading`, or `appLoading` with an active session) the gate
renders only the loading screen; but in the window after a session change and
before the load-triggering effect has set `appLoading`, the main screens can
render before any snapshot has been completed. -/
theorem C6_loading_gate (st : GateState) :
    (st.authLoading = true → render st = Screen.loading) ∧
    (∀ u, st.session = some u → st.appLoading = true → render st = Screen.loading) := by
  constructor
  · intro h
    simp [render, h]
  · intro u hs ha
    simp [render, hs, ha]

def C6LoadingState : GateState := { C6FlashState with appLoading := true }

theorem C6_loading_gate_witness :
    render C6LoadingState = Screen.loading :=
  (C6_loading_gate C6LoadingState).2 "u1" rfl rfl

/-! ## Claim C7 -/

def C7ItemA : HistoryItem := mkLabHistoryItem 7 "report A" "s" "t" "r"

def C7ItemB : HistoryItem := mkLabHistoryItem 7 "report B" "s" "t" "r"

/-- C7 counterexample: two distinct lab-report history items created within
the same millisecond receive the same id, so a history holding both has ids
that are not pairwise distinct — the id carries no random component, only the
timestamp plus the fixed type suffix. -/
theorem C7_counterexample :
    C7ItemA ≠ C7ItemB ∧
    C7ItemA.id = C7ItemB.id ∧
    ¬ (((historyAppend true "m" C7ItemB
          (historyAppend true "m" C7ItemA []).mem).mem.map (fun it => it.id)).Nodup) := by
  decide

/-- C7 (amended): each history id is the decimal timestamp followed by a
fixed type suffix (`_lab` or `_symptom`); ids of items of different types
never coincide, but two same-type items in the same millisecond receive the
same id. -/
theorem C7_id_structure :
    (∀ (t1 t2 : Nat) (a b c d e f g h : String),
      (mkLabHistoryItem t1 a b c d).id ≠ (mkSymptomHistoryItem t2 e f g h).id) ∧
    (∀ (t : Nat) (a b c d e f g h : String),
      (mkLabHistoryItem t a b c d).id = (mkLabHistoryItem t e f g h).id) ∧
    (∀ (t : Nat) (a b c d e f g h : String),
      (mkSymptomHistoryItem t a b c d).id = (mkSymptomHistoryItem t e f g h).id) := by
  refine ⟨?_, fun _ _ _ _ _ _ _ _ _ => rfl, fun _ _ _ _ _ _ _ _ _ => rfl⟩
  intro t1 t2 a b c d e f g h hEq
  have h1 : (toString t1 ++ "_lab").data = (toString t2 ++ "_symptom").data :=
    congrArg String.data hEq
  rw [String.data_append, String.data_append] at h1
  have h2 := congrArg List.reverse h1
  rw [List.reverse_append, List.reverse_append] at h2
  have h3 : "_lab".data.reverse = ['b', 'a', 'l', '_'] := rfl
  have h4 : "_symptom".data.reverse = ['m', 'o', 't', 'p', 'm', 'y', 's', '_'] := rfl
  rw [h3, h4] at h2
  simp at h2

theorem C7_id_structure_witness :
    (mkLabHistoryItem 7 "a" "b" "c" "d").id ≠ (mkSymptomHistoryItem 7 "a" "b" "c" "d").id :=
  C7_id_structure.1 7 7 "a" "b" "c" "d" "a" "b" "c" "d"

/-! ## Claim C8 -/

/-- Reminder lists reachable from the empty collection through the reminder
mutators (set/update and delete), under any environment. -/
inductive RemindersReachable : List Reminder → Prop
  | empty : RemindersReachable []
  | set (userId : Option String) (writeOk : Bool) (medName timeInput : String)
      (schedResult : Option String) {l : List Reminder} :
      RemindersReachable l →
      RemindersReachable
        (handleSetOrUpdateReminder userId writeOk medName timeInput schedResult l).mem
  | del (userId : Option String) (writeOk : Bool) (medName : String) {l : List Reminder} :
      RemindersReachable l →
      RemindersReachable (handleDeleteReminder userId writeOk medName l).mem

/-- Replacing in place the entries keyed by `medName` with a reminder keyed by
`medName` leaves the list of medication names unchanged. -/
theorem map_replace_medication (l : List Reminder) (medName t : String) (nid : Option String) :
    ((l.map (fun r => if r.medication == medName then (⟨medName, t, nid⟩ : Reminder) else r)).map
        (fun r => r.medication)) = l.map (fun r => r.medication) := by
  induction l with
  | nil => rfl
  | cons a tl ih =>
      simp only [List.map_cons, ih, List.cons.injEq, and_true]
      by_cases ha : a.medication == medName
      · have ha' : a.medication = medName := beq_iff_eq.mp ha
        simp [ha, ha']
      · simp [ha]

/-- The set/update mutator preserves distinctness of medication keys. -/
theorem handleSetOrUpdateReminder_meds_nodup (uid : Option String) (wk : Bool)
    (medName timeInput : String) (sched : Option String) (l : List Reminder)
    (h : (l.map (fun r => r.medication)).Nodup) :
    (((handleSetOrUpdateReminder uid wk medName timeInput sched l).mem).map
        (fun r => r.medication)).Nodup := by
  unfold handleSetOrUpdateReminder
  by_cases hmed : medName = ""
  · simpa [hmed] using h
  rw [if_neg hmed]
  cases hvt : validateTime (jsTrim timeInput) with
  | false => simpa [hvt] using h
  | true =>
      cases uid with
      | none => simpa [hvt] using h
      | some s =>
          cases hex : l.find? (fun r => r.medication == medName) with
          | some r0 =>
              cases wk with
              | false => simpa [hvt, hex] using h
              | true =>
                  simp only [hvt, hex, Bool.not_true, Bool.and_false, Bool.false_eq_true,
                    if_false, Option.isSome_some, if_true]
                  rw [map_replace_medication]
                  exact h
          | none =>
              cases sched with
              | none => simpa [hvt, hex] using h
              | some sv =>
                  cases wk with
                  | false => simpa [hvt, hex] using h
                  | true =>
                      have hnotin : medName ∉ l.map (fun r => r.medication) := by
                        intro hmem
                        rcases List.mem_map.mp hmem with ⟨r, hrl, hrm⟩
                        have := List.find?_eq_none.mp hex r hrl
                        simp [hrm] at this
                      simp only [hvt, hex]
                      simp only [Option.isSome_none, Bool.not_false, Bool.and_true,
                        Option.isSome_some, reduceIte]
                      simp [List.nodup_append, h, hnotin]

/-- The delete mutator preserves distinctness of medication keys. -/
theorem handleDeleteReminder_meds_nodup (uid : Option String) (wk : Bool) (medName : String)
    (l : List Reminder) (h : (l.map (fun r => r.medication)).Nodup) :
    (((handleDeleteReminder uid wk medName l).mem).map (fun r => r.medication)).Nodup := by
  unfold handleDeleteReminder
  cases uid with
  | none => exact h
  | some s =>
      cases hex : l.find? (fun r => r.medication == medName) with
      | none => simpa [hex] using h
      | some r0 =>
          cases wk with
          | false => simpa [hex] using h
          | true =>
              simp only [hex, reduceIte]
              exact h.sublist ((List.filter_sublist l).map _)

/-- C8: every reminders collection reachable through the reminder mutators
has pairwise distinct medication names, and setting "Aspirin" at "08:00" then
again at "09:00" leaves exactly one Aspirin entry, at "09:00". -/
theorem C8_upsert_by_medication :
    (∀ l, RemindersReachable l → (l.map (fun r => r.medication)).Nodup) ∧
    (handleSetOrUpdateReminder (some "u1") true "Aspirin" "09:00" (some "n2")
        (handleSetOrUpdateReminder (some "u1") true "Aspirin" "08:00" (some "n1") []).mem).mem
      = [⟨"Aspirin", "09:00", some "n2"⟩] := by
  constructor
  · intro l h
    induction h with
    | empty => simp
    | set uid wk med t sched hl ih =>
        exact handleSetOrUpdateReminder_meds_nodup uid wk med t sched _ ih
    | del uid wk med hl ih =>
        exact handleDeleteReminder_meds_nodup uid wk med _ ih
  · rfl

theorem C8_upsert_by_medication_witness :
    (((handleSetOrUpdateReminder (some "u1") true "Aspirin" "09:00" (some "n2")
        (handleSetOrUpdateReminder (some "u1") true "Aspirin" "08:00" (some "n1") []).mem).mem).map
      (fun r => r.medication)).Nodup :=
  C8_upsert_by_medication.1 _
    (RemindersReachable.set (some "u1") true "Aspirin" "09:00" (some "n2")
      (RemindersReachable.set (some "u1") true "Aspirin" "08:00" (some "n1")
        RemindersReachable.empty))

/-! ## Claim C4 -/

/-- C4 counterexample: the favorite-tip toggle applies the in-memory update
(`["tip1"]` from `[]`) although the write failed and nothing was persisted,
and raises no user-visible alert — the failure is only logged. -/
theorem C4_counterexample :
    toggleFavoriteTip (some "u1") false "tip1" [] =
      { mem := ["tip1"], written := none, alert := none } ∧
    (["tip1"] : List String) ≠ [] := by
  decide

/-- C4 (amended): for the reminder set/update and delete, history append and
delete, appointment add and cancel, and symptom-entry add and delete
mutators, a failed local write leaves the in-memory collection unchanged and
nothing persisted, and — whenever the write path was reached — a
storage-error alert is raised; the favorite-tip toggle, by contrast, applies
the in-memory update regardless of the write outcome and never alerts while
logged in. -/
theorem C4_fail_safe_except_toggle :
    (∀ uid med t sched (prev : List Reminder),
      (handleSetOrUpdateReminder uid false med t sched prev).mem = prev ∧
      (handleSetOrUpdateReminder uid false med t sched prev).written = none) ∧
    (∀ uid med (prev : List Reminder),
      (handleDeleteReminder uid false med prev).mem = prev ∧
      (handleDeleteReminder uid false med prev).written = none) ∧
    (∀ msg item (prev : List HistoryItem),
      (historyAppend false msg item prev).mem = prev ∧
      (historyAppend false msg item prev).written = none ∧
      (historyAppend false msg item prev).alert = some msg) ∧
    (∀ uid idd (prev : List HistoryItem),
      (deleteHistoryItem uid false idd prev).mem = prev ∧
      (deleteHistoryItem uid false idd prev).written = none) ∧
    (∀ uid title dt v now sched (prev : List Appointment),
      (bookAppointment uid false title dt v now sched prev).mem = prev ∧
      (bookAppointment uid false title dt v now sched prev).written = none) ∧
    (∀ uid idd (prev : List Appointment),
      (cancelAppointment uid false idd prev).mem = prev ∧
      (cancelAppointment uid false idd prev).written = none) ∧
    (∀ uid sy no stt eid ds ts now (prev : List SymptomEntry),
      (addEntry uid false sy no stt eid ds ts now prev).mem = prev ∧
      (addEntry uid false sy no stt eid ds ts now prev).written = none) ∧
    (∀ uid idd (prev : List SymptomEntry),
      (deleteEntry uid false idd prev).mem = prev ∧
      (deleteEntry uid false idd prev).written = none) ∧
    (∀ s med t sv (prev : List Reminder), med ≠ "" → validateTime (jsTrim t) = true →
      (handleSetOrUpdateReminder (some s) false med t (some sv) prev).alert =
        some "Could not save reminder changes.") ∧
    (∀ s med (prev : List Reminder) r0,
      prev.find? (fun r => r.medication == med) = some r0 →
      (handleDeleteReminder (some s) false med prev).alert =
        some "Could not update reminder list.") ∧
    (∀ s idd (prev : List HistoryItem) it0,
      prev.find? (fun it => it.id == idd) = some it0 →
      (deleteHistoryItem (some s) false idd prev).alert = some "Failed to delete item.") ∧
    (∀ s title dt now sched (prev : List Appointment), jsTrim title ≠ "" →
      (bookAppointment (some s) false title dt true now sched prev).alert =
        some "Could not save appointment.") ∧
    (∀ s idd (prev : List Appointment) a0,
      prev.find? (fun a => a.id == idd) = some a0 →
      (cancelAppointment (some s) false idd prev).alert = some "Could not update list.") ∧
    (∀ s sy no stt eid ds ts now (prev : List SymptomEntry), jsTrim sy ≠ "" →
      (addEntry (some s) false sy no stt eid ds ts now prev).alert =
        some "Could not save symptom entry.") ∧
    (∀ s idd (prev : List SymptomEntry) e0,
      prev.find? (fun e => e.id == idd) = some e0 →
      (deleteEntry (some s) false idd prev).alert = some "Could not delete entry.") ∧
    (∀ s wk tip (prev : List String),
      (toggleFavoriteTip (some s) wk tip prev).mem =
        (if prev.contains tip then prev.filter (fun i => i ≠ tip) else prev ++ [tip]) ∧
      (toggleFavoriteTip (some s) wk tip prev).alert = none) := by
  refine ⟨?_, ?_, ?_, ?_, ?_, ?_, ?_, ?_, ?_, ?_, ?_, ?_, ?_, ?_, ?_, ?_⟩
  · intro uid med t sched prev
    unfold handleSetOrUpdateReminder
    try dsimp only []
    repeat' split
    all_goals first
      | exact ⟨rfl, rfl⟩
      | simp_all
  · intro uid med prev
    unfold handleDeleteReminder
    try dsimp only []
    repeat' split
    all_goals first
      | exact ⟨rfl, rfl⟩
      | simp_all
  · intro msg item prev
    exact ⟨rfl, rfl, rfl⟩
  · intro uid idd prev
    unfold deleteHistoryItem
    try dsimp only []
    repeat' split
    all_goals first
      | exact ⟨rfl, rfl⟩
      | simp_all
  · intro uid title dt v now sched prev
    unfold bookAppointment
    try dsimp only []
    repeat' split
    all_goals first
      | exact ⟨rfl, rfl⟩
      | simp_all
  · intro uid idd prev
    unfold cancelAppointment
    try dsimp only []
    repeat' split
    all_goals first
      | exact ⟨rfl, rfl⟩
      | simp_all
  · intro uid sy no stt eid ds ts now prev
    unfold addEntry
    try dsimp only []
    repeat' split
    all_goals first
      | exact ⟨rfl, rfl⟩
      | simp_all
  · intro uid idd prev
    unfold deleteEntry
    try dsimp only []
    repeat' split
    all_goals first
      | exact ⟨rfl, rfl⟩
      | simp_all
  · intro s med t sv prev hm hv
    unfold handleSetOrUpdateReminder
    rw [if_neg hm]
    simp only [hv, Bool.not_true, Bool.false_eq_true, if_false]
    cases hex : prev.find? (fun r => r.medication == med) <;> simp [hex]
  · intro s med prev r0 hex
    simp [handleDeleteReminder, hex]
  · intro s idd prev it0 hex
    simp [deleteHistoryItem, hex]
  · intro s title dt now sched prev ht
    simp [bookAppointment, ht]
  · intro s idd prev a0 hex
    simp [cancelAppointment, hex]
  · intro s sy no stt eid ds ts now prev hs
    simp [addEntry, hs]
  · intro s idd prev e0 hex
    simp [deleteEntry, hex]
  · intro s wk tip prev
    cases wk <;> exact ⟨rfl, rfl⟩

theorem C4_fail_safe_except_toggle_witness :
    ((handleSetOrUpdateReminder (some "u1") false "Aspirin" "08:00" (some "n1")
        [⟨"Ibuprofen", "10:00", none⟩]).mem = [⟨"Ibuprofen", "10:00", none⟩]) ∧
    ((handleSetOrUpdateReminder (some "u1") false "Aspirin" "08:00" (some "n1")
        [⟨"Ibuprofen", "10:00", none⟩]).alert = some "Could not save reminder changes.") ∧
    ((handleDeleteReminder (some "u1") false "Ibuprofen"
        [⟨"Ibuprofen", "10:00", none⟩]).alert = some "Could not update reminder list.") ∧
    ((deleteHistoryItem (some "u1") false "7_lab" [mkLabHistoryItem 7 "a" "b" "c" "d"]).alert =
        some "Failed to delete item.") ∧
    ((bookAppointment (some "u1") false "Checkup" "12/31/2030 14:30" true 7 none []).alert =
        some "Could not save appointment.") ∧
    ((cancelAppointment (some "u1") false "7" [⟨"7", "12/31/2030 14:30", "Checkup", none⟩]).alert =
        some "Could not update list.") ∧
    ((addEntry (some "u1") false "cough" "" "ongoing" "id1" "d" "t" 5 []).alert =
        some "Could not save symptom entry.") ∧
    ((deleteEntry (some "u1") false "id1" [⟨"id1", "d", "t", "cough", "", "ongoing", 5⟩]).alert =
        some "Could not delete entry.") :=
  ⟨(C4_fail_safe_except_toggle.1 (some "u1") "Aspirin" "08:00" (some "n1")
      [⟨"Ibuprofen", "10:00", none⟩]).1,
   (C4_fail_safe_except_toggle.2.2.2.2.2.2.2.2.1 "u1" "Aspirin" "08:00" "n1"
      [⟨"Ibuprofen", "10:00", none⟩] (by decide) (by decide)),
   (C4_fail_safe_except_toggle.2.2.2.2.2.2.2.2.2.1 "u1" "Ibuprofen"
      [⟨"Ibuprofen", "10:00", none⟩] ⟨"Ibuprofen", "10:00", none⟩ (by decide)),
   (C4_fail_safe_except_toggle.2.2.2.2.2.2.2.2.2.2.1 "u1" "7_lab"
      [mkLabHistoryItem 7 "a" "b" "c" "d"] (mkLabHistoryItem 7 "a" "b" "c" "d") (by decide)),
   (C4_fail_safe_except_toggle.2.2.2.2.2.2.2.2.2.2.2.1 "u1" "Checkup" "12/31/2030 14:30" 7 none
      [] (by decide)),
   (C4_fail_safe_except_toggle.2.2.2.2.2.2.2.2.2.2.2.2.1 "u1" "7"
      [⟨"7", "12/31/2030 14:30", "Checkup", none⟩] ⟨"7", "12/31/2030 14:30", "Checkup", none⟩
      (by decide)),
   (C4_fail_safe_except_toggle.2.2.2.2.2.2.2.2.2.2.2.2.2.1 "u1" "cough" "" "ongoing" "id1" "d"
      "t" 5 [] (by decide)),
   (C4_fail_safe_except_toggle.2.2.2.2.2.2.2.2.2.2.2.2.2.2.1 "u1" "id1"
      [⟨"id1", "d", "t", "cough", "", "ongoing", 5⟩] ⟨"id1", "d", "t", "cough", "", "ongoing", 5⟩
      (by decide))⟩

/-! ## Claim C10 -/

/-- C10: the profile save path's remote write-through carries only the
columns id, name, dob and gender.  Consequently (i) upserting onto an
existing row leaves every other column unchanged, (ii) a freshly inserted row
has NULL in every other column, and (iii) a later remote-wins load of a
freshly saved row maps every field outside name/dob/gender back to its
default. -/
theorem C10_save_upserts_only_four_columns :
    (∀ (r : ProfileRow) (u n d g : String),
      (upsertProfilesRow (some r) (handleSaveProfilePayload u n d g)).age = r.age ∧
      (upsertProfilesRow (some r) (handleSaveProfilePayload u n d g)).conditions = r.conditions ∧
      (upsertProfilesRow (some r) (handleSaveProfilePayload u n d g)).allergies = r.allergies ∧
      (upsertProfilesRow (some r) (handleSaveProfilePayload u n d g)).medications =
        r.medications ∧
      (upsertProfilesRow (some r) (handleSaveProfilePayload u n d g)).medical_history =
        r.medical_history ∧
      (upsertProfilesRow (some r) (handleSaveProfilePayload u n d g)).family_history =
        r.family_history ∧
      (upsertProfilesRow (some r) (handleSaveProfilePayload u n d g)).vaccination_history =
        r.vaccination_history ∧
      (upsertProfilesRow (some r) (handleSaveProfilePayload u n d g)).blood_type =
        r.blood_type ∧
      (upsertProfilesRow (some r) (handleSaveProfilePayload u n d g)).lifestyle_smoker =
        r.lifestyle_smoker ∧
      (upsertProfilesRow (some r) (handleSaveProfilePayload u n d g)).lifestyle_alcohol =
        r.lifestyle_alcohol ∧
      (upsertProfilesRow (some r) (handleSaveProfilePayload u n d g)).lifestyle_exercise =
        r.lifestyle_exercise ∧
      (upsertProfilesRow (some r) (handleSaveProfilePayload u n d g)).lifestyle_dietary_notes =
        r.lifestyle_dietary_notes ∧
      (upsertProfilesRow (some r) (handleSaveProfilePayload u n d g)).biometrics_height =
        r.biometrics_height ∧
      (upsertProfilesRow (some r) (handleSaveProfilePayload u n d g)).biometrics_weight =
        r.biometrics_weight ∧
      (upsertProfilesRow (some r) (handleSaveProfilePayload u n d g)).emergency_contact_name =
        r.emergency_contact_name ∧
      (upsertProfilesRow (some r)
          (handleSaveProfilePayload u n d g)).emergency_contact_relationship =
        r.emergency_contact_relationship ∧
      (upsertProfilesRow (some r) (handleSaveProfilePayload u n d g)).emergency_contact_phone =
        r.emergency_contact_phone ∧
      (upsertProfilesRow (some r) (handleSaveProfilePayload u n d g)).state = r.state) ∧
    (∀ (u n d g : String),
      (upsertProfilesRow none (handleSaveProfilePayload u n d g)).age = none ∧
      (upsertProfilesRow none (handleSaveProfilePayload u n d g)).conditions = none ∧
      (upsertProfilesRow none (handleSaveProfilePayload u n d g)).allergies = none ∧
      (upsertProfilesRow none (handleSaveProfilePayload u n d g)).medications = none ∧
      (upsertProfilesRow none (handleSaveProfilePayload u n d g)).medical_history = none ∧
      (upsertProfilesRow none (handleSaveProfilePayload u n d g)).family_history = none ∧
      (upsertProfilesRow none (handleSaveProfilePayload u n d g)).vaccination_history = none ∧
      (upsertProfilesRow none (handleSaveProfilePayload u n d g)).blood_type = none ∧
      (upsertProfilesRow none (handleSaveProfilePayload u n d g)).lifestyle_smoker = none ∧
      (upsertProfilesRow none (handleSaveProfilePayload u n d g)).lifestyle_alcohol = none ∧
      (upsertProfilesRow none (handleSaveProfilePayload u n d g)).lifestyle_exercise = none ∧
      (upsertProfilesRow none (handleSaveProfilePayload u n d g)).lifestyle_dietary_notes =
        none ∧
      (upsertProfilesRow none (handleSaveProfilePayload u n d g)).biometrics_height = none ∧
      (upsertProfilesRow none (handleSaveProfilePayload u n d g)).biometrics_weight = none ∧
      (upsertProfilesRow none (handleSaveProfilePayload u n d g)).emergency_contact_name =
        none ∧
      (upsertProfilesRow none
          (handleSaveProfilePayload u n d g)).emergency_contact_relationship = none ∧
      (upsertProfilesRow none (handleSaveProfilePayload u n d g)).emergency_contact_phone =
        none ∧
      (upsertProfilesRow none (handleSaveProfilePayload u n d g)).state = none) ∧
    (∀ (u n d g v : String),
      (mapSupabaseProfile v (upsertProfilesRow none (handleSaveProfilePayload u n d g))).age =
        "" ∧
      (mapSupabaseProfile v
          (upsertProfilesRow none (handleSaveProfilePayload u n d g))).conditions = [] ∧
      (mapSupabaseProfile v
          (upsertProfilesRow none (handleSaveProfilePayload u n d g))).allergies = [] ∧
      (mapSupabaseProfile v
          (upsertProfilesRow none (handleSaveProfilePayload u n d g))).medications = [] ∧
      (mapSupabaseProfile v
          (upsertProfilesRow none (handleSaveProfilePayload u n d g))).medicalHistory = [] ∧
      (mapSupabaseProfile v
          (upsertProfilesRow none (handleSaveProfilePayload u n d g))).familyHistory = [] ∧
      (mapSupabaseProfile v
          (upsertProfilesRow none (handleSaveProfilePayload u n d g))).vaccinationHistory =
        "" ∧
      (mapSupabaseProfile v
          (upsertProfilesRow none (handleSaveProfilePayload u n d g))).bloodType = "" ∧
      (mapSupabaseProfile v
          (upsertProfilesRow none (handleSaveProfilePayload u n d g))).lifestyle =
        DEFAULT_PROFILE.lifestyle ∧
      (mapSupabaseProfile v
          (upsertProfilesRow none (handleSaveProfilePayload u n d g))).biometrics =
        DEFAULT_PROFILE.biometrics ∧
      (mapSupabaseProfile v
          (upsertProfilesRow none (handleSaveProfilePayload u n d g))).emergencyContact =
        DEFAULT_PROFILE.emergencyContact ∧
      (mapSupabaseProfile v
          (upsertProfilesRow none (handleSaveProfilePayload u n d g))).state = "") := by
  refine ⟨?_, ?_, ?_⟩
  · intro r u n d g
    repeat' constructor
  · intro u n d g
    repeat' constructor
  · intro u n d g v
    repeat' constructor

end Askdoc
